import Mathlib

/-!
Verification of the multi-tenant authorization core of the atomic-crm
repository: the API-key gateway edge function, the API-key management
edge function, the row-level security policies and triggers from the
SQL migrations, and the onboarding trigger.  Every definition is a
shallow embedding of the corresponding source code; the theorems relate
the embedded code to the properties stated in the specification.
-/

/-! ## Rows, tables and the database

A tenant-scoped row carries a numeric `id`, a NOT NULL `organization_id`
(`orgId` here), and its remaining columns as string attributes.  The
per-resource database is an association list from resource names to
tables, mirroring `supabaseAdmin.from(resource)`. -/

structure Row where
  id : Nat
  orgId : Nat
  attrs : List (String × String)
deriving DecidableEq, Repr

abbrev Table := List Row

abbrev Db := List (String × Table)

def getTable (db : Db) (res : String) : Table :=
  (List.lookup res db).getD []

def setTable (db : Db) (res : String) (t : Table) : Db :=
  match db with
  | [] => [(res, t)]
  | (k, v) :: rest => if k = res then (res, t) :: rest else (k, v) :: setTable rest res t

/-- Attribute lookup on a row (the value of a named column). -/
def attrOf (r : Row) (k : String) : Option String :=
  List.lookup k r.attrs

/-! ## JSON request bodies

A parsed JSON body for POST/PATCH/PUT requests: an optional `id`, an
optional `organization_id`, and the remaining fields.  `Option JBody`
models the outcome of `req.json()`: `none` is an unparsable body. -/

structure JBody where
  rowId : Option Nat := none
  organizationId : Option Nat := none
  attrs : List (String × String) := []
deriving DecidableEq, Repr

/-- The organization POST branch of the gateway builds
`bodyWithOrg = { ...body, organization_id: validation.organizationId }`:
the JavaScript spread puts `organization_id` last, so any client-supplied
value is overwritten. -/
def bodyWithOrg (body : JBody) (o : Option Nat) : JBody :=
  { body with organizationId := o }

/-! ## API keys: stored records and validation (api-gateway edge function) -/

inductive KeyType where
  | master
  | organization
deriving DecidableEq, Repr

/-- A stored `api_keys` row, restricted to the columns selected by
`validateApiKey`: `type, organization_id, scopes, revoked_at, expires_at`,
keyed by `key_hash`.  Timestamps are naturals. -/
structure ApiKeyRecord where
  keyHash : String
  ktype : KeyType
  organizationId : Option Nat
  scopes : Option (List String)
  revokedAt : Option Nat
  expiresAt : Option Nat
deriving DecidableEq, Repr

/-- The result record of `validateApiKey`. -/
structure ApiKeyValidation where
  isValid : Bool
  ktype : Option KeyType
  organizationId : Option Nat
  scopes : List String
  keyHash : Option String
deriving DecidableEq, Repr

/-- The rejection value returned by every failure branch of
`validateApiKey`: `{ isValid: false, type: null, organizationId: null, scopes: [] }`. -/
def rejectionValidation : ApiKeyValidation :=
  { isValid := false, ktype := none, organizationId := none, scopes := [], keyHash := none }

def isSpaceChar (c : Char) : Bool :=
  c = ' ' || c = '\t' || c = '\n' || c = '\r'

/-- `apiKey.replace(/^Bearer\s+/i, "")`: strip a leading case-insensitive
`Bearer` followed by at least one whitespace character. -/
def stripBearer (s : String) : String :=
  let cs := s.toList
  if (cs.take 6).map Char.toLower = "bearer".toList
      && (match cs.drop 6 with | c :: _ => isSpaceChar c | [] => false) then
    String.mk ((cs.drop 6).dropWhile isSpaceChar)
  else s

/-- `key.startsWith("ak_")`. -/
def startsWithAk (key : String) : Bool :=
  key.toList.take 3 = "ak_".toList

/-- `.eq("key_hash", keyHash).single()`: the sole record with the given
hash, or `none` when there are zero or several. -/
def singleByHash (keys : List ApiKeyRecord) (h : String) : Option ApiKeyRecord :=
  match keys.filter (fun k => k.keyHash = h) with
  | [r] => some r
  | _ => none

/-- `validateApiKey` from the api-gateway edge function.  `digest` stands
for the SHA-256 hex digest computed by `hashApiKey`.  `now` is the current
time; `new Date(expires_at) < new Date()` is a strict comparison. -/
def validateApiKey (digest : String → String) (keys : List ApiKeyRecord) (now : Nat)
    (apiKey : String) : ApiKeyValidation :=
  let key := stripBearer apiKey
  if !startsWithAk key then rejectionValidation
  else
    let h := digest key
    match singleByHash keys h with
    | none => rejectionValidation
    | some r =>
      if r.revokedAt.isSome then rejectionValidation
      else if (match r.expiresAt with | some t => decide (t < now) | none => false) then
        rejectionValidation
      else
        { isValid := true, ktype := some r.ktype, organizationId := r.organizationId,
          scopes := r.scopes.getD ["read", "write"], keyHash := some h }

/-! ## Rate limiter (api-gateway edge function) -/

structure RateRecord where
  count : Nat
  resetAt : Nat
deriving DecidableEq, Repr

abbrev RateMap := List (String × RateRecord)

def rlSet (m : RateMap) (k : String) (v : RateRecord) : RateMap :=
  match m with
  | [] => [(k, v)]
  | (k', v') :: rest => if k' = k then (k, v) :: rest else (k', v') :: rlSet rest k v

/-- `checkRateLimit` with `RATE_LIMIT = 100`: reset the counter on the first
request ever or the first strictly after `resetAt`; otherwise reject at
`count >= 100` without touching the state, or increment and admit. -/
def checkRateLimit (m : RateMap) (now : Nat) (keyHash : String) : Bool × RateMap :=
  match List.lookup keyHash m with
  | none => (true, rlSet m keyHash ⟨1, now + 60000⟩)
  | some r =>
    if r.resetAt < now then (true, rlSet m keyHash ⟨1, now + 60000⟩)
    else if 100 ≤ r.count then (false, m)
    else (true, rlSet m keyHash ⟨r.count + 1, r.resetAt⟩)

/-- Run a sequence of requests for one key through `checkRateLimit`,
collecting the admission decisions. -/
def rlRun (k : String) (times : List Nat) (m : RateMap) : RateMap × List Bool :=
  match times with
  | [] => (m, [])
  | t :: ts =>
    let (ok, m') := checkRateLimit m t k
    let (mf, oks) := rlRun k ts m'
    (mf, ok :: oks)

/-! ## Gateway dispatch (api-gateway edge function, `Deno.serve` handler)

The handler dispatches inline on `validation.type` and `req.method`; the
separately defined `executeQuery` function (which contains a scope check)
is never invoked by the handler. -/

/-- `.eq("organization_id", validation.organizationId!)`: a row matches the
organization filter when the filter value is non-null and equals the row's
`organization_id` (SQL equality against NULL is never true). -/
def orgFilter (o : Option Nat) (r : Row) : Bool :=
  o = some r.orgId

/-- `.eq("id", id)` where `id` is the query-string value: PostgREST compares
the numeric column against the rendered parameter. -/
def idMatches (idStr : String) (r : Row) : Bool :=
  toString r.id = idStr

def setAttr (attrs : List (String × String)) (kv : String × String) : List (String × String) :=
  match attrs with
  | [] => [kv]
  | (k, v) :: rest => if k = kv.1 then (kv.1, kv.2) :: rest else (k, v) :: setAttr rest kv

def applyAttrs (upd : List (String × String)) (attrs : List (String × String)) :
    List (String × String) :=
  upd.foldl setAttr attrs

/-- A fresh primary key for an insert that does not supply one. -/
def freshId (t : Table) : Nat :=
  (t.map Row.id).foldl Nat.max 0 + 1

/-- `.insert(body)`: inserting with a null `organization_id` violates the
NOT NULL constraint and surfaces as a storage error. -/
def insertRow (t : Table) (b : JBody) : Except String (Table × List Row) :=
  match b.organizationId with
  | none => .error "null value in column organization_id violates not-null constraint"
  | some o =>
    let r : Row := { id := b.rowId.getD (freshId t), orgId := o, attrs := b.attrs }
    .ok (t ++ [r], [r])

/-- `.update(body)` applied to one row: set each column supplied in the body. -/
def applyPatch (b : JBody) (r : Row) : Row :=
  { id := b.rowId.getD r.id,
    orgId := b.organizationId.getD r.orgId,
    attrs := applyAttrs b.attrs r.attrs }

/-- `.update(body).eq(...)....select()`: the new table and the list of
updated rows returned by `.select()`. -/
def updateRows (t : Table) (p : Row → Bool) (b : JBody) : Table × List Row :=
  (t.map (fun r => if p r then applyPatch b r else r),
   (t.filter p).map (applyPatch b))

/-- `.delete().eq(...)`: remove every matching row. -/
def deleteRows (t : Table) (p : Row → Bool) : Table :=
  t.filter (fun r => !p r)

/-- Outcome of one dispatch branch of the handler's try-block: an early
error response (missing id), a thrown storage error (caught as 500), a
`result = { data }` value together with the updated table, or no matching
branch, which leaves `result` undefined. -/
inductive DispatchOut where
  | httpErr (status : Nat) (msg : String)
  | storageErr (msg : String)
  | jsonOut (data : Option (List Row)) (t : Table)
  | undef (t : Table)
deriving DecidableEq, Repr

/-- The master branch of the handler: no organization filter anywhere. -/
def masterDispatch (method : String) (idParam : Option String) (body : Option JBody)
    (t : Table) : DispatchOut :=
  if method = "GET" then
    .jsonOut (some t) t
  else if method = "POST" then
    match insertRow t (body.getD {}) with
    | .error m => .storageErr m
    | .ok (t', rows) => .jsonOut (some rows) t'
  else if method = "PATCH" then
    match idParam with
    | none => .httpErr 400 "Missing id parameter for PATCH"
    | some idStr =>
      let (t', rows) := updateRows t (fun r => idMatches idStr r) (body.getD {})
      .jsonOut (some rows) t'
  else if method = "DELETE" then
    match idParam with
    | none => .httpErr 400 "Missing id parameter for DELETE"
    | some idStr => .jsonOut none (deleteRows t (fun r => idMatches idStr r))
  else .undef t

/-- The organization branch of the handler: GET filtered by
`organization_id`, POST with `bodyWithOrg`, PATCH/DELETE filtered by both
`id` and `organization_id`.  `o` is `validation.organizationId`. -/
def orgDispatch (o : Option Nat) (method : String) (idParam : Option String)
    (body : Option JBody) (t : Table) : DispatchOut :=
  if method = "GET" then
    .jsonOut (some (t.filter (orgFilter o))) t
  else if method = "POST" then
    match insertRow t (bodyWithOrg (body.getD {}) o) with
    | .error m => .storageErr m
    | .ok (t', rows) => .jsonOut (some rows) t'
  else if method = "PATCH" then
    match idParam with
    | none => .httpErr 400 "Missing id parameter for PATCH"
    | some idStr =>
      let (t', rows) := updateRows t (fun r => idMatches idStr r && orgFilter o r) (body.getD {})
      .jsonOut (some rows) t'
  else if method = "DELETE" then
    match idParam with
    | none => .httpErr 400 "Missing id parameter for DELETE"
    | some idStr => .jsonOut none (deleteRows t (fun r => idMatches idStr r && orgFilter o r))
  else .undef t

/-! ## The gateway handler (`Deno.serve` in the api-gateway edge function) -/

structure GatewayRequest where
  method : String
  authHeader : Option String
  params : List (String × String)
  body : Option JBody
deriving DecidableEq, Repr

/-- An HTTP response of the gateway: an error body built by
`createErrorResponse(status, message)` (or the 429 response, which has the
same JSON shape), a 200 response serializing `result` (`none` serializes
the undefined `result` of an unmatched verb; `some none` is `{ data: null }`),
or the 204 CORS preflight response. -/
inductive GatewayResponse where
  | err (status : Nat) (msg : String)
  | ok (result : Option (Option (List Row)))
  | preflight
deriving DecidableEq, Repr

def statusOf : GatewayResponse → Nat
  | .err s _ => s
  | .ok _ => 200
  | .preflight => 204

structure GatewayOutcome where
  response : GatewayResponse
  rate : RateMap
  db : Db
deriving DecidableEq, Repr

/-- The full request handler, in the source's order: OPTIONS preflight;
missing-header 401; `validateApiKey` with uniform 401; `checkRateLimit`
with 429; missing-resource 400; JSON body parse for POST/PATCH/PUT with
400; `url.searchParams.delete("resource")`; then the inline master or
organization dispatch.  No scope check is performed on this path. -/
def gatewayHandle (digest : String → String) (keys : List ApiKeyRecord) (now : Nat)
    (rate : RateMap) (db : Db) (req : GatewayRequest) : GatewayOutcome :=
  if req.method = "OPTIONS" then ⟨.preflight, rate, db⟩
  else
    match req.authHeader with
    | none => ⟨.err 401 "Missing Authorization header", rate, db⟩
    | some hdr =>
      let v := validateApiKey digest keys now hdr
      if !v.isValid then ⟨.err 401 "Invalid or expired API key", rate, db⟩
      else
        let rl := checkRateLimit rate now (v.keyHash.getD "")
        if !rl.1 then
          ⟨.err 429 "Rate limit exceeded. Maximum 100 requests per minute.", rl.2, db⟩
        else
          match List.lookup "resource" req.params with
          | none => ⟨.err 400 "Missing resource parameter", rl.2, db⟩
          | some resource =>
            if (req.method = "POST" || req.method = "PATCH" || req.method = "PUT")
                && req.body.isNone then
              ⟨.err 400 "Invalid JSON body", rl.2, db⟩
            else
              let params' := req.params.filter (fun p => p.1 ≠ "resource")
              let idParam := List.lookup "id" params'
              let t := getTable db resource
              let out :=
                if v.ktype = some .master then
                  masterDispatch req.method idParam req.body t
                else
                  orgDispatch v.organizationId req.method idParam req.body t
              match out with
              | .httpErr s m => ⟨.err s m, rl.2, db⟩
              | .storageErr m => ⟨.err 500 m, rl.2, db⟩
              | .jsonOut d t' => ⟨.ok (some d), rl.2, setTable db resource t'⟩
              | .undef _ => ⟨.ok none, rl.2, db⟩

/-! ## API key generation and storage (api-keys / master-provisioning edge functions) -/

/-- Lowercase hex digit, as produced by `b.toString(16)`. -/
def hexDigit (n : Nat) : Char :=
  if n < 10 then Char.ofNat (48 + n) else Char.ofNat (87 + n)

/-- `b.toString(16).padStart(2, "0")` for a byte `0 ≤ b ≤ 255`: exactly two
lowercase hex characters. -/
def byteToHexChars (b : Nat) : List Char :=
  [hexDigit (b / 16 % 16), hexDigit (b % 16)]

/-- The `join`ed hex rendering of a byte array. -/
def bytesToHex (bs : List Nat) : List Char :=
  bs.flatMap byteToHexChars

/-- The family marker chosen by `generateApiKey`. -/
def keyFamilyStr (ktype : KeyType) : String :=
  if ktype = .master then "ak_master_" else "ak_org_"

/-- `generateApiKey`: 32 random bytes, rendered as hex and then truncated
by `.substring(0, 32)` to the first 32 hex characters, appended to the
family marker.  `randomBytes` stands for `crypto.getRandomValues(new
Uint8Array(32))`. -/
def generateApiKey (ktype : KeyType) (randomBytes : List Nat) : String :=
  keyFamilyStr ktype ++ String.mk ((bytesToHex randomBytes).take 32)

/-- The stored, non-secret fields derived from a generated key in the POST
handlers: `key_hash = hashApiKey(apiKey)` and
`key_prefix = apiKey.substring(0, 12) + "..."`. -/
def storedKeyFields (digest : String → String) (apiKey : String) : String × String :=
  (digest apiKey, String.mk (apiKey.toList.take 12) ++ "...")

/-! ## Row-level security policies (migrations)

`get_user_organization_id()` reads the API-key session variables first and
falls back to the `sales` row of `auth.uid()`;
`is_master_api_key()` tests `current_setting('app.api_key_is_master')`.
Each tenant-scoped table carries the four `tenant_isolation_*` policies
and the `master_key_full_access` policy; PostgreSQL combines permissive
policies on the same command with OR. -/

/-- The ambient session state consulted by the policy helper functions:
the two session variables set by the edge function for API-key requests,
and the `organization_id` of the `sales` row matching `auth.uid()` for
JWT requests (`none` when there is no such row). -/
structure SessionContext where
  apiKeyIsMaster : Option String
  apiKeyOrganizationId : Option Nat
  jwtUserOrgId : Option Nat
deriving DecidableEq, Repr

/-- `is_master_api_key()`: `current_setting('app.api_key_is_master', true) = 'true'`. -/
def isMasterApiKey (c : SessionContext) : Bool :=
  c.apiKeyIsMaster = some "true"

/-- `get_user_organization_id()`: NULL for a master key, the session
variable for an organization key, else the JWT user's organization. -/
def getUserOrganizationId (c : SessionContext) : Option Nat :=
  if isMasterApiKey c then none
  else match c.apiKeyOrganizationId with
    | some o => some o
    | none => c.jwtUserOrgId

/-- The `tenant_isolation_*` USING / WITH CHECK predicate on a persisted
row: `organization_id = get_user_organization_id()` under SQL NULL
semantics. -/
def tenantIsolationPred (c : SessionContext) (r : Row) : Bool :=
  match getUserOrganizationId c with
  | some o => r.orgId = o
  | none => false

/-- The `master_key_full_access` USING / WITH CHECK predicate. -/
def masterKeyPred (c : SessionContext) (_r : Row) : Bool :=
  isMasterApiKey c

/-- OR-combination of the permissive policies applicable to SELECT. -/
def rlsAllowsSelect (c : SessionContext) (r : Row) : Bool :=
  tenantIsolationPred c r || masterKeyPred c r

/-- OR-combination of the USING sides applicable to UPDATE. -/
def rlsAllowsUpdate (c : SessionContext) (r : Row) : Bool :=
  tenantIsolationPred c r || masterKeyPred c r

/-- OR-combination of the permissive policies applicable to DELETE. -/
def rlsAllowsDelete (c : SessionContext) (r : Row) : Bool :=
  tenantIsolationPred c r || masterKeyPred c r

/-! ## Auto-population trigger and the insert path (migrations) -/

/-- A row as it stands during a BEFORE INSERT trigger: `sales_id` and
`organization_id` may still be null. -/
structure NewRow where
  salesId : Option Nat := none
  organizationId : Option Nat := none
  attrs : List (String × String) := []
deriving DecidableEq, Repr

/-- `set_sales_id_default()`: look up the current user's `id` and
`organization_id` from `sales`, then fill in `NEW.sales_id` and
`NEW.organization_id` only when the client left them null. -/
def set_sales_id_default (currentSalesId currentOrgId : Option Nat) (new : NewRow) : NewRow :=
  let n1 := if new.salesId = none then { new with salesId := currentSalesId } else new
  if n1.organizationId = none then { n1 with organizationId := currentOrgId } else n1

/-- The `tenant_isolation_insert` WITH CHECK predicate on the to-be-written
row (nullable `organization_id`, SQL NULL semantics). -/
def tenantInsertCheck (c : SessionContext) (n : NewRow) : Bool :=
  match n.organizationId, getUserOrganizationId c with
  | some a, some b => a = b
  | _, _ => false

/-- The `master_key_full_access` WITH CHECK predicate on a to-be-written row. -/
def masterInsertCheck (c : SessionContext) (_n : NewRow) : Bool :=
  isMasterApiKey c

/-- OR-combination of the WITH CHECK sides applicable to INSERT. -/
def rlsAllowsInsert (c : SessionContext) (n : NewRow) : Bool :=
  tenantInsertCheck c n || masterInsertCheck c n

/-- An INSERT through the storage engine: the BEFORE trigger populates the
row first, then the INSERT policies check the populated row; `none` is a
rejected insert (no row persisted). -/
def persistInsert (c : SessionContext) (currentSalesId currentOrgId : Option Nat)
    (new : NewRow) : Option NewRow :=
  let n := set_sales_id_default currentSalesId currentOrgId new
  if rlsAllowsInsert c n then some n else none

/-! ## Onboarding trigger (`handle_new_user`, migration 20260126202025) -/

structure OrgRec where
  id : Nat
  name : String
  slug : String
deriving DecidableEq, Repr

structure SaleRec where
  userId : String
  email : String
  administrator : Bool
  organizationId : Nat
  firstName : Option String
  lastName : Option String
deriving DecidableEq, Repr

/-- The pieces of `raw_user_meta_data` the trigger reads.
`hasOrganizationName` is the jsonb `?` key-existence test; a present key
whose value is null gives `hasOrganizationName = true` with
`organizationName = none`. -/
structure UserMeta where
  organizationId : Option Nat := none
  hasOrganizationName : Bool := false
  organizationName : Option String := none
  administrator : Option Bool := none
  firstName : Option String := none
  lastName : Option String := none
deriving DecidableEq, Repr

structure SignupState where
  organizations : List OrgRec
  sales : List SaleRec
deriving DecidableEq, Repr

/-- A fresh organization id for `INSERT ... RETURNING id`. -/
def nextOrgId (st : SignupState) : Nat :=
  (st.organizations.map OrgRec.id).foldl Nat.max 0 + 1

/-- `handle_new_user()`: invitation path when the metadata carries an
`organization_id`; multi-org signup when it names an organization;
bootstrap when no `sales` row exists; otherwise
`RAISE EXCEPTION` and no row is written. -/
def handle_new_user (st : SignupState) (newId : String) (newEmail : String)
    (meta : UserMeta) : Except String SignupState :=
  let finish (orgs : List OrgRec) (orgId : Nat) (isAdmin : Bool) : SignupState :=
    { organizations := orgs,
      sales := st.sales ++
        [{ userId := newId, email := newEmail, administrator := isAdmin,
           organizationId := orgId, firstName := meta.firstName, lastName := meta.lastName }] }
  match meta.organizationId with
  | some o => .ok (finish st.organizations o (meta.administrator.getD false))
  | none =>
    if meta.hasOrganizationName then
      let o := nextOrgId st
      .ok (finish
        (st.organizations ++ [⟨o, meta.organizationName.getD "My Organization", "org-" ++ newId⟩])
        o true)
    else if st.sales.length = 0 then
      let o := nextOrgId st
      .ok (finish (st.organizations ++ [⟨o, "My Organization", "org-" ++ newId⟩]) o true)
    else
      .error "Cannot self-register: organization already exists. Please contact an administrator for an invitation."

/-! ## Spec-side reading of GET filters, for comparison (claim C9)

Modelled from the spec: "all other query parameters as equality filters" -
a GET under an organization credential would return exactly the rows that
match the organization filter and whose named columns equal every supplied
extra parameter. -/

def rowMatchesParams (ps : List (String × String)) (r : Row) : Bool :=
  ps.all (fun p => attrOf r p.1 = some p.2)

/-- Modelled from the spec: the organization GET result claimed by the
spec, with every query parameter other than `resource` and `id` applied as
an equality filter. -/
def specOrgGetWithFilters (o : Option Nat) (ps : List (String × String)) (t : Table) :
    List Row :=
  t.filter (fun r =>
    orgFilter o r && rowMatchesParams (ps.filter (fun p => p.1 ≠ "resource" && p.1 ≠ "id")) r)

/-! ## Helper lemmas -/

theorem lookup_filter_ne {α : Type} (k bad : String) (h : k ≠ bad)
    (l : List (String × α)) :
    List.lookup k (l.filter (fun p => p.1 ≠ bad)) = List.lookup k l := by
  induction l with
  | nil => rfl
  | cons hd tl ih =>
    simp only [ne_eq, decide_not] at ih ⊢
    by_cases hb : hd.1 = bad
    · have hk : (k == bad) = false := by simpa using h
      simp [List.filter, hb, List.lookup, hk]
      exact ih
    · by_cases hk : k = hd.1
      · simp [List.filter, hb, List.lookup, hk]
      · have hk' : (k == hd.1) = false := by simpa using hk
        simp [List.filter, hb, List.lookup, hk']
        exact ih

theorem map_eq_self_of_mem {α : Type} {l : List α} {f : α → α}
    (h : ∀ a ∈ l, f a = a) : l.map f = l := by
  induction l with
  | nil => rfl
  | cons hd tl ih =>
    simp only [List.map_cons, h hd (by simp), ih (fun a ha => h a (by simp [ha]))]

/-! ## Claim theorems -/

/-- C2: for every tenant-scoped table (all carry the same four
`tenant_isolation_*` policies plus `master_key_full_access`),
SELECT/UPDATE/DELETE on a row is allowed iff the row's `organization_id`
equals the scope's organization id or the scope is a master key; INSERT is
allowed iff the to-be-written row's `organization_id` satisfies the same
disjunction; permissive policies on one table combine by OR; and a
non-master scope never satisfies the master predicate. -/
theorem c2_rls_policy_predicate (c : SessionContext) (r : Row) (n : NewRow) (v : Nat) :
    (rlsAllowsSelect c r = true ↔
      (getUserOrganizationId c = some r.orgId ∨ isMasterApiKey c = true)) ∧
    (rlsAllowsUpdate c r = true ↔
      (getUserOrganizationId c = some r.orgId ∨ isMasterApiKey c = true)) ∧
    (rlsAllowsDelete c r = true ↔
      (getUserOrganizationId c = some r.orgId ∨ isMasterApiKey c = true)) ∧
    (n.organizationId = some v →
      (rlsAllowsInsert c n = true ↔
        (getUserOrganizationId c = some v ∨ isMasterApiKey c = true))) ∧
    rlsAllowsSelect c r = (tenantIsolationPred c r || masterKeyPred c r) ∧
    rlsAllowsInsert c n = (tenantInsertCheck c n || masterInsertCheck c n) ∧
    (isMasterApiKey c = false →
      masterKeyPred c r = false ∧ masterInsertCheck c n = false) := by
  have key : ∀ x : Row, (tenantIsolationPred c x || masterKeyPred c x) = true ↔
      (getUserOrganizationId c = some x.orgId ∨ isMasterApiKey c = true) := by
    intro x
    unfold tenantIsolationPred masterKeyPred
    cases h : getUserOrganizationId c with
    | none => simp
    | some o =>
      simp only [Bool.or_eq_true, decide_eq_true_eq, Option.some.injEq]
      constructor
      · rintro (h' | h')
        · exact Or.inl h'.symm
        · exact Or.inr h'
      · rintro (h' | h')
        · exact Or.inl h'.symm
        · exact Or.inr h'
  refine ⟨key r, key r, key r, ?_, rfl, rfl, ?_⟩
  · intro hv
    unfold rlsAllowsInsert tenantInsertCheck masterInsertCheck
    rw [hv]
    cases h : getUserOrganizationId c with
    | none => simp
    | some o =>
      simp only [Bool.or_eq_true, decide_eq_true_eq, Option.some.injEq]
      constructor
      · rintro (h' | h')
        · exact Or.inl h'.symm
        · exact Or.inr h'
      · rintro (h' | h')
        · exact Or.inl h'.symm
        · exact Or.inr h'
  · intro h
    exact ⟨by simp [masterKeyPred, h], by simp [masterInsertCheck, h]⟩

/-- C2 witness: a concrete organization scope and row exercising each
hypothesis of `c2_rls_policy_predicate`. -/
theorem c2_rls_policy_predicate_witness :
    (rlsAllowsSelect ⟨none, some 7, none⟩ ⟨1, 7, []⟩ = true ↔
      (getUserOrganizationId ⟨none, some 7, none⟩ = some 7 ∨
        isMasterApiKey ⟨none, some 7, none⟩ = true)) ∧
    (rlsAllowsInsert ⟨none, some 7, none⟩ ⟨none, some 7, []⟩ = true ↔
      (getUserOrganizationId ⟨none, some 7, none⟩ = some 7 ∨
        isMasterApiKey ⟨none, some 7, none⟩ = true)) ∧
    masterKeyPred ⟨none, some 7, none⟩ ⟨1, 7, []⟩ = false := by
  have h := c2_rls_policy_predicate ⟨none, some 7, none⟩ ⟨1, 7, []⟩ ⟨none, some 7, []⟩ 7
  exact ⟨h.1, (h.2.2.2.1 rfl), (h.2.2.2.2.2.2 rfl).1⟩

/-- C3: under an organization-scoped credential, the gateway POST always
overwrites any client-supplied `organization_id` with the credential's
bound organization and persists the row with that value; on the
storage-trigger path, an insert omitting `organization_id` is populated
from the current scope before the policy check and persists with the bound
organization (never null); and a client-supplied mismatching value can
never be persisted. -/
theorem c3_auto_population (b : JBody) (o : Nat) (idp : Option String) (t : Table)
    (c : SessionContext) (sid : Option Nat) (new : NewRow)
    (hscope : getUserOrganizationId c = some o)
    (hmaster : isMasterApiKey c = false)
    (homit : new.organizationId = none) :
    (bodyWithOrg b (some o)).organizationId = some o ∧
    (∃ r : Row, orgDispatch (some o) "POST" idp (some b) t =
        .jsonOut (some [r]) (t ++ [r]) ∧ r.orgId = o) ∧
    (∃ n : NewRow, persistInsert c sid (some o) new = some n ∧
        n.organizationId = some o) ∧
    (∀ (new' : NewRow) (x : Nat), new'.organizationId = some x → x ≠ o →
        persistInsert c sid (some o) new' = none) := by
  refine ⟨rfl, ?_, ?_, ?_⟩
  · refine ⟨{ id := b.rowId.getD (freshId t), orgId := o, attrs := b.attrs }, ?_, rfl⟩
    simp [orgDispatch, insertRow, bodyWithOrg]
  · have hpop : (set_sales_id_default sid (some o) new).organizationId = some o := by
      unfold set_sales_id_default
      by_cases hs : new.salesId = none <;> simp [hs, homit]
    refine ⟨set_sales_id_default sid (some o) new, ?_, hpop⟩
    unfold persistInsert
    suffices hall : rlsAllowsInsert c (set_sales_id_default sid (some o) new) = true by
      simp [hall]
    unfold rlsAllowsInsert tenantInsertCheck
    rw [hpop, hscope]
    simp
  · intro new' x hx hne
    have hkeep : (set_sales_id_default sid (some o) new').organizationId = some x := by
      unfold set_sales_id_default
      by_cases hs : new'.salesId = none <;> simp [hs, hx]
    unfold persistInsert
    suffices hall : rlsAllowsInsert c (set_sales_id_default sid (some o) new') = false by
      simp [hall]
    unfold rlsAllowsInsert tenantInsertCheck masterInsertCheck
    rw [hkeep, hscope, hmaster]
    simp [hne]

/-- C3 witness: a concrete organization scope, request body carrying a
foreign `organization_id`, and an omitted-value insert. -/
theorem c3_auto_population_witness :
    (bodyWithOrg ⟨none, some 9, [("name", "x")]⟩ (some 4)).organizationId = some 4 ∧
    (∃ r : Row, orgDispatch (some 4) "POST" none (some ⟨none, some 9, [("name", "x")]⟩) [] =
        .jsonOut (some [r]) ([] ++ [r]) ∧ r.orgId = 4) ∧
    (∃ n : NewRow, persistInsert ⟨none, some 4, none⟩ (some 2) (some 4) ⟨none, none, []⟩ =
        some n ∧ n.organizationId = some 4) ∧
    (∀ (new' : NewRow) (x : Nat), new'.organizationId = some x → x ≠ 4 →
        persistInsert ⟨none, some 4, none⟩ (some 2) (some 4) new' = none) :=
  c3_auto_population ⟨none, some 9, [("name", "x")]⟩ 4 none []
    ⟨none, some 4, none⟩ (some 2) ⟨none, none, []⟩ rfl rfl rfl

/-- C7: on identity creation, metadata with an `organization_id` creates a
principal bound to that existing organization (administrator taken from
metadata, default false) and no new organization; metadata naming an
organization creates a new organization with the principal as its
administrator; with neither, the first-ever signup creates exactly one
default organization and one administrator principal, and any later
signup raises an exception and creates no principal. -/
theorem c7_onboarding (st : SignupState) (newId newEmail : String) (meta : UserMeta)
    (o : Nat) :
    (meta.organizationId = some o →
      handle_new_user st newId newEmail meta = .ok
        { organizations := st.organizations,
          sales := st.sales ++
            [{ userId := newId, email := newEmail,
               administrator := meta.administrator.getD false, organizationId := o,
               firstName := meta.firstName, lastName := meta.lastName }] }) ∧
    (meta.organizationId = none → meta.hasOrganizationName = true →
      handle_new_user st newId newEmail meta = .ok
        { organizations := st.organizations ++
            [⟨nextOrgId st, meta.organizationName.getD "My Organization", "org-" ++ newId⟩],
          sales := st.sales ++
            [{ userId := newId, email := newEmail, administrator := true,
               organizationId := nextOrgId st,
               firstName := meta.firstName, lastName := meta.lastName }] }) ∧
    (meta.organizationId = none → meta.hasOrganizationName = false → st.sales = [] →
      handle_new_user st newId newEmail meta = .ok
        { organizations := st.organizations ++
            [⟨nextOrgId st, "My Organization", "org-" ++ newId⟩],
          sales := [{ userId := newId, email := newEmail, administrator := true,
                      organizationId := nextOrgId st,
                      firstName := meta.firstName, lastName := meta.lastName }] }) ∧
    (meta.organizationId = none → meta.hasOrganizationName = false → st.sales ≠ [] →
      handle_new_user st newId newEmail meta =
        .error "Cannot self-register: organization already exists. Please contact an administrator for an invitation.") := by
  refine ⟨?_, ?_, ?_, ?_⟩
  · intro h
    simp [handle_new_user, h]
  · intro h hn
    simp [handle_new_user, h, hn]
  · intro h hn hs
    simp [handle_new_user, h, hn, hs]
  · intro h hn hs
    have hlen : st.sales.length ≠ 0 := by
      simpa using fun hcon => hs (List.length_eq_zero.mp hcon)
    simp [handle_new_user, h, hn, hlen]

/-- C7 witness: the four onboarding branches at concrete states
(invitation, named new organization, bootstrap, rejected self-signup). -/
theorem c7_onboarding_witness :
    (handle_new_user ⟨[⟨1, "A", "org-a"⟩], []⟩ "u1" "e1"
        { organizationId := some 1, administrator := some true } = .ok
      { organizations := [⟨1, "A", "org-a"⟩],
        sales := [{ userId := "u1", email := "e1", administrator := true,
                    organizationId := 1, firstName := none, lastName := none }] }) ∧
    (handle_new_user ⟨[⟨1, "A", "org-a"⟩], [⟨"u1", "e1", true, 1, none, none⟩]⟩ "u2" "e2"
        { hasOrganizationName := true, organizationName := some "B" } = .ok
      { organizations := [⟨1, "A", "org-a"⟩, ⟨2, "B", "org-u2"⟩],
        sales := [⟨"u1", "e1", true, 1, none, none⟩,
                  { userId := "u2", email := "e2", administrator := true,
                    organizationId := 2, firstName := none, lastName := none }] }) ∧
    (handle_new_user ⟨[], []⟩ "u0" "e0" {} = .ok
      { organizations := [⟨1, "My Organization", "org-u0"⟩],
        sales := [{ userId := "u0", email := "e0", administrator := true,
                    organizationId := 1, firstName := none, lastName := none }] }) ∧
    (handle_new_user ⟨[⟨1, "A", "org-a"⟩], [⟨"u1", "e1", true, 1, none, none⟩]⟩ "u3" "e3"
        {} = .error "Cannot self-register: organization already exists. Please contact an administrator for an invitation.") := by
  refine ⟨?_, ?_, ?_, ?_⟩
  · exact (c7_onboarding ⟨[⟨1, "A", "org-a"⟩], []⟩ "u1" "e1"
      { organizationId := some 1, administrator := some true } 1).1 rfl
  · exact (c7_onboarding ⟨[⟨1, "A", "org-a"⟩], [⟨"u1", "e1", true, 1, none, none⟩]⟩
      "u2" "e2" { hasOrganizationName := true, organizationName := some "B" } 0).2.1 rfl rfl
  · exact (c7_onboarding ⟨[], []⟩ "u0" "e0" {} 0).2.2.1 rfl rfl rfl
  · exact (c7_onboarding ⟨[⟨1, "A", "org-a"⟩], [⟨"u1", "e1", true, 1, none, none⟩]⟩
      "u3" "e3" {} 0).2.2.2 rfl rfl (by simp)

/-- C1: for organizations `o1 ≠ o2` and a row `R` of `o1`, a request under
an organization credential bound to `o2` observes zero rows matching `R`
on GET, and a PATCH or DELETE targeting `R`'s id matches zero rows and
leaves the table unchanged, because the organization branch adds an
`organization_id` equality filter to every read and id-targeted mutation. -/
theorem c1_tenant_isolation (t : Table) (o1 o2 : Nat) (R : Row) (idStr : String)
    (body : Option JBody) (idp : Option String)
    (hmem : R ∈ t) (horg : R.orgId = o1) (hne : o1 ≠ o2)
    (hid : idMatches idStr R = true)
    (huniq : ∀ r ∈ t, idMatches idStr r = true → r = R) :
    (orgDispatch (some o2) "GET" idp body t =
        .jsonOut (some (t.filter (orgFilter (some o2)))) t ∧
      R ∉ t.filter (orgFilter (some o2)) ∧
      ∀ r ∈ t.filter (orgFilter (some o2)), r.orgId = o2) ∧
    orgDispatch (some o2) "PATCH" (some idStr) body t = .jsonOut (some []) t ∧
    orgDispatch (some o2) "DELETE" (some idStr) body t = .jsonOut none t := by
  have hRorg : orgFilter (some o2) R = false := by
    simp [orgFilter, horg]
    exact fun hcon => hne hcon.symm
  have hpred : ∀ r ∈ t, (idMatches idStr r && orgFilter (some o2) r) = false := by
    intro r hr
    by_cases hm : idMatches idStr r = true
    · have hrR := huniq r hr hm
      rw [hrR]
      simp [hRorg]
    · simp [Bool.eq_false_iff.mpr hm]
  have hfilter : t.filter (fun r => idMatches idStr r && orgFilter (some o2) r) = [] :=
    List.filter_eq_nil_iff.mpr (fun r hr => by simp [hpred r hr])
  have hmap : (t.map fun r =>
      if idMatches idStr r && orgFilter (some o2) r then applyPatch (body.getD {}) r
      else r) = t :=
    map_eq_self_of_mem (fun r hr => by simp [hpred r hr])
  refine ⟨⟨rfl, ?_, ?_⟩, ?_, ?_⟩
  · intro hcon
    rcases List.mem_filter.mp hcon with ⟨_, hf⟩
    rw [hRorg] at hf
    exact Bool.false_ne_true hf
  · intro r hr
    rcases List.mem_filter.mp hr with ⟨_, hf⟩
    have : o2 = r.orgId := by simpa [orgFilter] using hf
    exact this.symm
  · show DispatchOut.jsonOut
      (some (((t.filter fun r => idMatches idStr r && orgFilter (some o2) r)).map
        (applyPatch (body.getD {})))) (t.map fun r =>
          if idMatches idStr r && orgFilter (some o2) r then applyPatch (body.getD {}) r
          else r) = .jsonOut (some []) t
    rw [hfilter, hmap]
    rfl
  · show DispatchOut.jsonOut none
      (t.filter fun r => !(idMatches idStr r && orgFilter (some o2) r)) = .jsonOut none t
    have hkeep : t.filter (fun r => !(idMatches idStr r && orgFilter (some o2) r)) = t :=
      List.filter_eq_self.mpr (fun r hr => by simp [hpred r hr])
    rw [hkeep]

/-- C1 witness: a one-row table owned by organization 1 probed with a
credential bound to organization 2. -/
theorem c1_tenant_isolation_witness :
    (orgDispatch (some 2) "GET" none none [⟨5, 1, []⟩] =
        .jsonOut (some (([⟨5, 1, []⟩] : Table).filter (orgFilter (some 2)))) [⟨5, 1, []⟩] ∧
      (⟨5, 1, []⟩ : Row) ∉ ([⟨5, 1, []⟩] : Table).filter (orgFilter (some 2)) ∧
      ∀ r ∈ ([⟨5, 1, []⟩] : Table).filter (orgFilter (some 2)), r.orgId = 2) ∧
    orgDispatch (some 2) "PATCH" (some "5") none [⟨5, 1, []⟩] = .jsonOut (some []) [⟨5, 1, []⟩] ∧
    orgDispatch (some 2) "DELETE" (some "5") none [⟨5, 1, []⟩] = .jsonOut none [⟨5, 1, []⟩] :=
  c1_tenant_isolation [⟨5, 1, []⟩] 1 2 ⟨5, 1, []⟩ "5" none none (by simp)
    rfl (by decide) (by decide) (by decide)

/-- C5: whether the stored record is not found, revoked, or expired,
`validateApiKey` returns the identical rejection value (no type, no
organization, empty scopes) and the handler answers with the same 401
status and the same message, so the sub-reason is not observable. -/
theorem c5_uniform_auth_failure (digest : String → String) (keys : List ApiKeyRecord)
    (now : Nat) (hdr m : String) (rate : RateMap) (db : Db)
    (ps : List (String × String)) (b : Option JBody)
    (hm : m ≠ "OPTIONS")
    (h : singleByHash keys (digest (stripBearer hdr)) = none
      ∨ (∃ r, singleByHash keys (digest (stripBearer hdr)) = some r ∧ r.revokedAt.isSome)
      ∨ (∃ r x, singleByHash keys (digest (stripBearer hdr)) = some r ∧
          r.expiresAt = some x ∧ x < now)) :
    validateApiKey digest keys now hdr = rejectionValidation ∧
    rejectionValidation =
      { isValid := false, ktype := none, organizationId := none, scopes := [],
        keyHash := none } ∧
    gatewayHandle digest keys now rate db ⟨m, some hdr, ps, b⟩ =
      ⟨.err 401 "Invalid or expired API key", rate, db⟩ := by
  have hval : validateApiKey digest keys now hdr = rejectionValidation := by
    unfold validateApiKey
    by_cases hak : startsWithAk (stripBearer hdr) = true
    · simp only [hak, Bool.not_true, Bool.false_eq_true, if_false]
      rcases h with hnone | ⟨r, hr, hrev⟩ | ⟨r, x, hr, hexp, hlt⟩
      · rw [hnone]
      · rw [hr]
        simp [hrev]
      · rw [hr]
        by_cases hrev : r.revokedAt.isSome
        · simp [hrev]
        · simp [hrev, hexp, hlt]
    · simp [Bool.eq_false_iff.mpr hak]
  refine ⟨hval, rfl, ?_⟩
  unfold gatewayHandle
  rw [if_neg hm]
  simp [hval, rejectionValidation]

/-- C5 witness: a revoked stored key; the second disjunct holds. -/
theorem c5_uniform_auth_failure_witness :
    validateApiKey (fun s => s)
        [{ keyHash := "ak_w", ktype := .organization, organizationId := some 1,
           scopes := none, revokedAt := some 10, expiresAt := none }] 20 "ak_w" =
      rejectionValidation ∧
    rejectionValidation =
      { isValid := false, ktype := none, organizationId := none, scopes := [],
        keyHash := none } ∧
    gatewayHandle (fun s => s)
        [{ keyHash := "ak_w", ktype := .organization, organizationId := some 1,
           scopes := none, revokedAt := some 10, expiresAt := none }] 20 [] []
        ⟨"GET", some "ak_w", [("resource", "contacts")], none⟩ =
      ⟨.err 401 "Invalid or expired API key", [], []⟩ :=
  c5_uniform_auth_failure (fun s => s)
    [{ keyHash := "ak_w", ktype := .organization, organizationId := some 1,
       scopes := none, revokedAt := some 10, expiresAt := none }] 20 "ak_w" "GET"
    [] [] [("resource", "contacts")] none (by decide)
    (Or.inr (Or.inl ⟨⟨"ak_w", .organization, some 1, none, some 10, none⟩,
      by decide, by decide⟩))

/-- C6: per key digest, a first-ever request or a first request strictly
after the reset time is admitted with count 1 and a fresh 60-second
window; within the window a request below 100 increments and is admitted;
at count 100 the request is rejected without modifying the state; and the
concrete run of 100 requests admits all of them, rejects the 101st inside
the window with the distinct 429 handler response, and admits the first
request after the window. -/
theorem c6_rate_limiter (m : RateMap) (now : Nat) (k : String) (r : RateRecord) :
    (List.lookup k m = none →
      checkRateLimit m now k = (true, rlSet m k ⟨1, now + 60000⟩)) ∧
    (List.lookup k m = some r → r.resetAt < now →
      checkRateLimit m now k = (true, rlSet m k ⟨1, now + 60000⟩)) ∧
    (List.lookup k m = some r → ¬ r.resetAt < now → r.count < 100 →
      checkRateLimit m now k = (true, rlSet m k ⟨r.count + 1, r.resetAt⟩)) ∧
    (List.lookup k m = some r → ¬ r.resetAt < now → 100 ≤ r.count →
      checkRateLimit m now k = (false, m)) ∧
    ((rlRun "k" (List.replicate 100 0) []).2 = List.replicate 100 true ∧
     (rlRun "k" (List.replicate 100 0) []).1 = [("k", ⟨100, 60000⟩)] ∧
     checkRateLimit [("k", ⟨100, 60000⟩)] 59999 "k" = (false, [("k", ⟨100, 60000⟩)]) ∧
     checkRateLimit [("k", ⟨100, 60000⟩)] 60001 "k" = (true, [("k", ⟨1, 120001⟩)])) ∧
    gatewayHandle (fun s => s)
        [{ keyHash := "ak_k", ktype := .organization, organizationId := some 1,
           scopes := none, revokedAt := none, expiresAt := none }] 59999
        [("ak_k", ⟨100, 60000⟩)] []
        ⟨"GET", some "ak_k", [("resource", "contacts")], none⟩ =
      ⟨.err 429 "Rate limit exceeded. Maximum 100 requests per minute.",
        [("ak_k", ⟨100, 60000⟩)], []⟩ := by
  refine ⟨?_, ?_, ?_, ?_, by decide, by decide⟩
  · intro h
    unfold checkRateLimit
    rw [h]
  · intro h hlt
    simp only [checkRateLimit, h]
    rw [if_pos hlt]
  · intro h hge hcnt
    simp only [checkRateLimit, h]
    rw [if_neg hge, if_neg (by omega : ¬ 100 ≤ r.count)]
  · intro h hge hcnt
    simp only [checkRateLimit, h]
    rw [if_neg hge, if_pos hcnt]

/-- C6 witness: each transition of `c6_rate_limiter` exercised on concrete
rate-limiter states. -/
theorem c6_rate_limiter_witness :
    checkRateLimit [] 5 "k" = (true, rlSet [] "k" ⟨1, 5 + 60000⟩) ∧
    checkRateLimit [("k", ⟨40, 3⟩)] 5 "k" = (true, rlSet [("k", ⟨40, 3⟩)] "k" ⟨1, 5 + 60000⟩) ∧
    checkRateLimit [("k", ⟨40, 9⟩)] 5 "k" = (true, rlSet [("k", ⟨40, 9⟩)] "k" ⟨40 + 1, 9⟩) ∧
    checkRateLimit [("k", ⟨100, 9⟩)] 5 "k" = (false, [("k", ⟨100, 9⟩)]) := by
  refine ⟨?_, ?_, ?_, ?_⟩
  · exact (c6_rate_limiter [] 5 "k" ⟨0, 0⟩).1 (by decide)
  · exact (c6_rate_limiter [("k", ⟨40, 3⟩)] 5 "k" ⟨40, 3⟩).2.1 (by decide) (by decide)
  · exact (c6_rate_limiter [("k", ⟨40, 9⟩)] 5 "k" ⟨40, 9⟩).2.2.1 (by decide) (by decide)
      (by decide)
  · exact (c6_rate_limiter [("k", ⟨100, 9⟩)] 5 "k" ⟨100, 9⟩).2.2.2.1 (by decide) (by decide)
      (by decide)

/-- C4: the deployed handler performs no scope check: a valid organization
credential whose `scopes` list is only `["read"]` issues a DELETE, the
handler deletes the row from storage and answers 200, never 403 - the
scope check exists only in the never-invoked `executeQuery` function. -/
theorem c4_scope_check_missing :
    gatewayHandle (fun s => s)
        [{ keyHash := "ak_k", ktype := .organization, organizationId := some 1,
           scopes := some ["read"], revokedAt := none, expiresAt := none }]
        0 [] [("contacts", [{ id := 1, orgId := 1, attrs := [("first_name", "Alice")] }])]
        { method := "DELETE", authHeader := some "ak_k",
          params := [("resource", "contacts"), ("id", "1")], body := none } =
      ⟨.ok (some none), [("ak_k", ⟨1, 60000⟩)], [("contacts", [])]⟩ ∧
    (validateApiKey (fun s => s)
        [{ keyHash := "ak_k", ktype := .organization, organizationId := some 1,
           scopes := some ["read"], revokedAt := none, expiresAt := none }]
        0 "ak_k").scopes = ["read"] ∧
    statusOf (.ok (some none)) = 200 := by
  refine ⟨by decide, by decide, rfl⟩

/-- C10: with a valid, non-rate-limited credential, a resource, and a verb
outside GET/POST/PATCH/DELETE/OPTIONS (the body still being parsed for
PUT), no dispatch branch matches, storage is untouched, and the handler
answers 200 serializing the undefined `result` - not 405. -/
theorem c10_unmatched_verb (digest : String → String) (keys : List ApiKeyRecord)
    (now : Nat) (rate : RateMap) (db : Db) (method hdr res : String)
    (ps : List (String × String)) (b : JBody)
    (hv : (validateApiKey digest keys now hdr).isValid = true)
    (hrl : (checkRateLimit rate now
      ((validateApiKey digest keys now hdr).keyHash.getD "")).1 = true)
    (hres : List.lookup "resource" ps = some res)
    (hm : method ∉ (["GET", "POST", "PATCH", "DELETE", "OPTIONS"] : List String)) :
    gatewayHandle digest keys now rate db ⟨method, some hdr, ps, some b⟩ =
      ⟨.ok none,
        (checkRateLimit rate now
          ((validateApiKey digest keys now hdr).keyHash.getD "")).2, db⟩ ∧
    masterDispatch method (List.lookup "id" (ps.filter (fun p => p.1 ≠ "resource")))
        (some b) (getTable db res) = .undef (getTable db res) ∧
    orgDispatch (validateApiKey digest keys now hdr).organizationId method
        (List.lookup "id" (ps.filter (fun p => p.1 ≠ "resource")))
        (some b) (getTable db res) = .undef (getTable db res) ∧
    statusOf (.ok none) = 200 ∧
    (method = "PUT" →
      gatewayHandle digest keys now rate db ⟨method, some hdr, ps, none⟩ =
        ⟨.err 400 "Invalid JSON body",
          (checkRateLimit rate now
            ((validateApiKey digest keys now hdr).keyHash.getD "")).2, db⟩) := by
  have hget : method ≠ "GET" := fun hcon => hm (by simp [hcon])
  have hpost : method ≠ "POST" := fun hcon => hm (by simp [hcon])
  have hpatch : method ≠ "PATCH" := fun hcon => hm (by simp [hcon])
  have hdel : method ≠ "DELETE" := fun hcon => hm (by simp [hcon])
  have hopt : method ≠ "OPTIONS" := fun hcon => hm (by simp [hcon])
  have hmaster : ∀ idp bo t, masterDispatch method idp bo t = .undef t := by
    intro idp bo t
    unfold masterDispatch
    rw [if_neg hget, if_neg hpost, if_neg hpatch, if_neg hdel]
  have horg : ∀ o idp bo t, orgDispatch o method idp bo t = .undef t := by
    intro o idp bo t
    unfold orgDispatch
    rw [if_neg hget, if_neg hpost, if_neg hpatch, if_neg hdel]
  refine ⟨?_, hmaster _ _ _, horg _ _ _ _, rfl, ?_⟩
  · unfold gatewayHandle
    rw [if_neg hopt]
    simp only [hres, hv]
    simp only [Bool.not_true, Bool.false_eq_true, if_false]
    rw [if_neg (by simp [hrl] : ¬ (!(checkRateLimit rate now
      ((validateApiKey digest keys now hdr).keyHash.getD "")).1) = true)]
    simp only [Option.isNone_some, Bool.and_false, Bool.false_eq_true, if_false]
    by_cases hk : (validateApiKey digest keys now hdr).ktype = some KeyType.master <;>
      simp [hk, hmaster, horg]
  · intro hput
    unfold gatewayHandle
    rw [if_neg hopt]
    simp only [hres, hv]
    simp only [Bool.not_true, Bool.false_eq_true, if_false]
    rw [if_neg (by simp [hrl] : ¬ (!(checkRateLimit rate now
      ((validateApiKey digest keys now hdr).keyHash.getD "")).1) = true)]
    simp [hput]

/-- C10 witness: a PUT request under a valid organization key. -/
theorem c10_unmatched_verb_witness :
    gatewayHandle (fun s => s)
        [{ keyHash := "ak_k", ktype := .organization, organizationId := some 1,
           scopes := none, revokedAt := none, expiresAt := none }]
        0 [] [("contacts", [])]
        ⟨"PUT", some "ak_k", [("resource", "contacts")], some {}⟩ =
      ⟨.ok none,
        (checkRateLimit [] 0
          ((validateApiKey (fun s => s)
            [{ keyHash := "ak_k", ktype := .organization, organizationId := some 1,
               scopes := none, revokedAt := none, expiresAt := none }]
            0 "ak_k").keyHash.getD "")).2, [("contacts", [])]⟩ :=
  (c10_unmatched_verb (fun s => s)
    [{ keyHash := "ak_k", ktype := .organization, organizationId := some 1,
       scopes := none, revokedAt := none, expiresAt := none }]
    0 [] [("contacts", [])] "PUT" "ak_k" "contacts" [("resource", "contacts")] {}
    (by decide) (by decide) (by decide) (by decide)).1

/-! ## Hex-rendering lemmas for claim C8 -/

theorem hexDigit_inj : ∀ x < 16, ∀ y < 16, hexDigit x = hexDigit y → x = y := by
  decide

theorem byteToHexChars_inj {a b : Nat} (ha : a < 256) (hb : b < 256)
    (h : byteToHexChars a = byteToHexChars b) : a = b := by
  unfold byteToHexChars at h
  simp only [List.cons.injEq, and_true] at h
  obtain ⟨h1, h2⟩ := h
  have e1 : a / 16 % 16 = b / 16 % 16 :=
    hexDigit_inj _ (Nat.mod_lt _ (by omega)) _ (Nat.mod_lt _ (by omega)) h1
  have e2 : a % 16 = b % 16 :=
    hexDigit_inj _ (Nat.mod_lt _ (by omega)) _ (Nat.mod_lt _ (by omega)) h2
  have ha16 : a / 16 < 16 := by omega
  have hb16 : b / 16 < 16 := by omega
  rw [Nat.mod_eq_of_lt ha16, Nat.mod_eq_of_lt hb16] at e1
  omega

theorem bytesToHex_inj : ∀ (b1 b2 : List Nat), (∀ x ∈ b1, x < 256) →
    (∀ x ∈ b2, x < 256) → bytesToHex b1 = bytesToHex b2 → b1 = b2 := by
  intro b1
  induction b1 with
  | nil =>
    intro b2 _ _ h
    cases b2 with
    | nil => rfl
    | cons hd tl => simp [bytesToHex, byteToHexChars] at h
  | cons hd tl ih =>
    intro b2 h1 h2 h
    cases b2 with
    | nil => simp [bytesToHex, byteToHexChars] at h
    | cons hd' tl' =>
      simp only [bytesToHex, List.flatMap_cons, byteToHexChars, List.cons_append,
        List.nil_append, List.cons.injEq] at h
      obtain ⟨e1, e2, erest⟩ := h
      have hhd : hd = hd' :=
        byteToHexChars_inj (h1 hd (by simp)) (h2 hd' (by simp))
          (by simp [byteToHexChars, e1, e2])
      have htl : tl = tl' :=
        ih tl' (fun x hx => h1 x (by simp [hx])) (fun x hx => h2 x (by simp [hx])) erest
      rw [hhd, htl]

theorem bytesToHex_take (bs : List Nat) (n : Nat) :
    (bytesToHex bs).take (2 * n) = bytesToHex (bs.take n) := by
  induction bs generalizing n with
  | nil => simp [bytesToHex]
  | cons hd tl ih =>
    cases n with
    | zero => simp [bytesToHex]
    | succ k =>
      have h2 : 2 * (k + 1) = 2 * k + 1 + 1 := by ring
      simp only [bytesToHex, List.flatMap_cons, byteToHexChars, List.cons_append,
        List.nil_append, List.take_cons, h2, List.take_succ_cons]
      exact congrArg _ (congrArg _ (ih k))

/-- C8 counterexample: two distinct valid 32-byte random inputs produce
the identical secret, because `generateApiKey` truncates the 64-character
hex rendering to its first 32 characters; the random portion is therefore
not an injective hex rendering of the 32 random bytes. -/
theorem c8_counterexample :
    generateApiKey .organization (List.replicate 32 0) =
      generateApiKey .organization (List.replicate 31 0 ++ [255]) ∧
    List.replicate 32 (0 : Nat) ≠ List.replicate 31 (0 : Nat) ++ [255] ∧
    (List.replicate 32 (0 : Nat)).length = 32 ∧
    (List.replicate 31 (0 : Nat) ++ [255]).length = 32 ∧
    (∀ x ∈ List.replicate 32 (0 : Nat), x < 256) ∧
    (∀ x ∈ List.replicate 31 (0 : Nat) ++ [255], x < 256) := by
  refine ⟨by decide, by decide, by decide, by decide, by decide, by decide⟩

/-- C8 amended: the generated secret is the family marker followed by the
hex rendering of only the first 16 of the 32 random bytes (32 hex
characters, 16 bytes of entropy), injective in those 16 bytes; and the
store receives only the digest of the secret plus the display value made
of its first 12 characters and an ellipsis. -/
theorem c8_key_generation (ktype : KeyType) (digest : String → String)
    (B C : List Nat) (hvalB : ∀ x ∈ B, x < 256) (hvalC : ∀ x ∈ C, x < 256) :
    generateApiKey ktype B = keyFamilyStr ktype ++ String.mk (bytesToHex (B.take 16)) ∧
    (generateApiKey ktype B = generateApiKey ktype C → B.take 16 = C.take 16) ∧
    storedKeyFields digest (generateApiKey ktype B) =
      (digest (generateApiKey ktype B),
        String.mk ((generateApiKey ktype B).toList.take 12) ++ "...") := by
  have hshape : ∀ D : List Nat,
      generateApiKey ktype D = keyFamilyStr ktype ++ String.mk (bytesToHex (D.take 16)) := by
    intro D
    unfold generateApiKey
    rw [show (32 : Nat) = 2 * 16 by norm_num, bytesToHex_take]
  refine ⟨hshape B, ?_, rfl⟩
  intro h
  rw [hshape B, hshape C] at h
  have hdata : (keyFamilyStr ktype ++ String.mk (bytesToHex (B.take 16))).data =
      (keyFamilyStr ktype ++ String.mk (bytesToHex (C.take 16))).data := by rw [h]
  simp only [String.data_append] at hdata
  have hhex : bytesToHex (B.take 16) = bytesToHex (C.take 16) :=
    List.append_cancel_left hdata
  exact bytesToHex_inj (B.take 16) (C.take 16)
    (fun x hx => hvalB x (List.mem_of_mem_take hx))
    (fun x hx => hvalC x (List.mem_of_mem_take hx)) hhex

/-- C8 witness: the amended statement at two concrete byte arrays. -/
theorem c8_key_generation_witness :
    generateApiKey .organization (List.replicate 32 3) =
      keyFamilyStr .organization ++
        String.mk (bytesToHex ((List.replicate 32 (3 : Nat)).take 16)) ∧
    (generateApiKey .organization (List.replicate 32 3) =
        generateApiKey .organization (List.replicate 32 (4 : Nat)) →
      (List.replicate 32 (3 : Nat)).take 16 = (List.replicate 32 (4 : Nat)).take 16) ∧
    storedKeyFields (fun s => s) (generateApiKey .organization (List.replicate 32 3)) =
      ((fun s : String => s) (generateApiKey .organization (List.replicate 32 3)),
        String.mk ((generateApiKey .organization (List.replicate 32 3)).toList.take 12)
          ++ "...") :=
  c8_key_generation .organization (fun s => s) (List.replicate 32 3) (List.replicate 32 4)
    (by decide) (by decide)

/-- C9 counterexample: a GET carrying the extra query parameter
`first_name=Bob` returns the row whose `first_name` is `Alice`; the
handler applies no equality filter from query parameters, diverging from
the spec-modelled result, which is empty at this input. -/
theorem c9_counterexample :
    (gatewayHandle (fun s => s)
        [{ keyHash := "ak_k", ktype := .organization, organizationId := some 2,
           scopes := none, revokedAt := none, expiresAt := none }] 0 []
        [("contacts", [{ id := 1, orgId := 2, attrs := [("first_name", "Alice")] }])]
        ⟨"GET", some "ak_k", [("resource", "contacts"), ("first_name", "Bob")], none⟩).response
      = .ok (some (some [{ id := 1, orgId := 2, attrs := [("first_name", "Alice")] }])) ∧
    specOrgGetWithFilters (some 2) [("first_name", "Bob")]
        [{ id := 1, orgId := 2, attrs := [("first_name", "Alice")] }] = [] ∧
    attrOf { id := 1, orgId := 2, attrs := [("first_name", "Alice")] } "first_name" =
      some "Alice" := by
  refine ⟨by decide, by decide, by decide⟩

/-- C9 amended: every query parameter other than `resource` (and `id`) is
ignored by the handler - two requests differing only in such parameters
produce identical outcomes - and a GET returns exactly the rows passing
the organization filter (all rows for a master credential), with no
column-equality filters applied. -/
theorem c9_filters_ignored (digest : String → String) (keys : List ApiKeyRecord)
    (now : Nat) (rate : RateMap) (db : Db) (method : String) (auth : Option String)
    (ps1 ps2 : List (String × String)) (body : Option JBody)
    (o : Option Nat) (idp : Option String) (b : Option JBody) (t : Table)
    (hres : List.lookup "resource" ps1 = List.lookup "resource" ps2)
    (hid : List.lookup "id" ps1 = List.lookup "id" ps2) :
    gatewayHandle digest keys now rate db ⟨method, auth, ps1, body⟩ =
      gatewayHandle digest keys now rate db ⟨method, auth, ps2, body⟩ ∧
    orgDispatch o "GET" idp b t = .jsonOut (some (t.filter (orgFilter o))) t ∧
    masterDispatch "GET" idp b t = .jsonOut (some t) t := by
  refine ⟨?_, rfl, rfl⟩
  have hfil : List.lookup "id" (ps1.filter (fun p => p.1 ≠ "resource")) =
      List.lookup "id" (ps2.filter (fun p => p.1 ≠ "resource")) := by
    rw [lookup_filter_ne "id" "resource" (by decide) ps1,
        lookup_filter_ne "id" "resource" (by decide) ps2, hid]
  unfold gatewayHandle
  simp only
  rw [hres, hfil]

/-- C9 witness: two GETs differing only in an extra `first_name` filter
parameter produce the same outcome. -/
theorem c9_filters_ignored_witness :
    gatewayHandle (fun s => s)
        [{ keyHash := "ak_k", ktype := .organization, organizationId := some 2,
           scopes := none, revokedAt := none, expiresAt := none }] 0 []
        [("contacts", [{ id := 1, orgId := 2, attrs := [("first_name", "Alice")] }])]
        ⟨"GET", some "ak_k", [("resource", "contacts"), ("first_name", "Bob")], none⟩ =
      gatewayHandle (fun s => s)
        [{ keyHash := "ak_k", ktype := .organization, organizationId := some 2,
           scopes := none, revokedAt := none, expiresAt := none }] 0 []
        [("contacts", [{ id := 1, orgId := 2, attrs := [("first_name", "Alice")] }])]
        ⟨"GET", some "ak_k", [("resource", "contacts")], none⟩ ∧
    orgDispatch (some 2) "GET" none none
        [{ id := 1, orgId := 2, attrs := [("first_name", "Alice")] }] =
      .jsonOut (some (([{ id := 1, orgId := 2, attrs := [("first_name", "Alice")] }] :
        Table).filter (orgFilter (some 2))))
        [{ id := 1, orgId := 2, attrs := [("first_name", "Alice")] }] ∧
    masterDispatch "GET" none none
        [{ id := 1, orgId := 2, attrs := [("first_name", "Alice")] }] =
      .jsonOut (some [{ id := 1, orgId := 2, attrs := [("first_name", "Alice")] }])
        [{ id := 1, orgId := 2, attrs := [("first_name", "Alice")] }] :=
  c9_filters_ignored (fun s => s)
    [{ keyHash := "ak_k", ktype := .organization, organizationId := some 2,
       scopes := none, revokedAt := none, expiresAt := none }] 0 []
    [("contacts", [{ id := 1, orgId := 2, attrs := [("first_name", "Alice")] }])]
    "GET" (some "ak_k") [("resource", "contacts"), ("first_name", "Bob")]
    [("resource", "contacts")] none (some 2) none none
    [{ id := 1, orgId := 2, attrs := [("first_name", "Alice")] }]
    (by decide) (by decide)
